import Mathlib

/-!
# Verification of the intraf control-plane connection layer

A shallow embedding of the connection-management core of the repository:
the coordinator-side `ConnectionPool` (admission controller), the agent-side
`ConnectionStateMachine`, the `ReconnectingWebSocketClient` reconnection
engine, the heartbeat helpers and the coordinator's auth-response message
handler, together with theorems settling the specification claims about them.

JS `Map`s are embedded as association lists whose operations mirror
`Map.get` / `Map.set` / `Map.delete` (first matching key wins; `set`
replaces in place, `delete` removes the key).  JS `Set`s are embedded as
lists whose operations mirror `Set.add` (no-op when the element is present)
and `Set.delete`.  JS truthiness of an optional / string value
(`if (ipAddress)`, `if (data.token)`) is embedded explicitly: an absent
value and the empty string are both falsy.
-/

namespace Intraf

/-! ## JS `Map` and `Set` primitives -/

/-- JS `Map.get k`: value at the first matching key, if any. -/
def mapGet {α : Type} : List (String × α) → String → Option α
  | [], _ => none
  | (k', v) :: rest, k => if k' = k then some v else mapGet rest k

/-- JS `Map.set k v`: replace the binding of `k` in place, or append a fresh one. -/
def mapSet {α : Type} : List (String × α) → String → α → List (String × α)
  | [], k, v => [(k, v)]
  | (k', v') :: rest, k, v =>
    if k' = k then (k, v) :: rest else (k', v') :: mapSet rest k v

/-- JS `Map.delete k`: remove the binding of `k`. -/
def mapDelete {α : Type} : List (String × α) → String → List (String × α)
  | [], _ => []
  | (k', v) :: rest, k =>
    if k' = k then mapDelete rest k else (k', v) :: mapDelete rest k

/-- JS `Set.add x`: append `x` unless it is already present. -/
def setAdd (s : List String) (x : String) : List String :=
  if x ∈ s then s else s ++ [x]

/-- JS `Set.delete x`: remove `x`. -/
def setDelete : List String → String → List String
  | [], _ => []
  | y :: rest, x => if y = x then setDelete rest x else y :: setDelete rest x

/-! ## Connection pool (coordinator-side admission controller)

Embeds `ConnectionPool` from the pool module: configuration, per-connection
metadata, the rejection enum, the two maps (`connections` keyed by client id,
`ipConnections` keyed by origin IP), the draining flag and the statistics
counters.  The socket handle and the timestamps carried by `ConnectionInfo`
play no role in any admission decision and are not represented. -/

/-- The fields of `ConnectionInfo` that admission control reads. -/
structure ConnectionInfo where
  clientId : String
  ipAddress : String
  authenticated : Bool
deriving DecidableEq

/-- Embeds `PoolConfig`. -/
structure PoolConfig where
  maxConnections : Nat
  maxConnectionsPerIp : Nat
deriving DecidableEq

/-- Embeds `RejectionReason`. -/
inductive RejectionReason where
  | POOL_FULL
  | IP_LIMIT_REACHED
  | DRAINING
deriving DecidableEq

/-- The pool's lifetime statistics counters. -/
structure PoolStatsCounters where
  totalConnected : Nat
  totalDisconnected : Nat
  rejected : Nat
  rejectedPerIp : Nat
deriving DecidableEq

/-- The mutable state of a `ConnectionPool`. -/
structure PoolState where
  connections : List (String × ConnectionInfo)
  ipConnections : List (String × List String)
  draining : Bool
  stats : PoolStatsCounters
deriving DecidableEq

/-- The freshly constructed pool: empty maps, not draining, zero counters. -/
def emptyPool : PoolState :=
  { connections := []
    ipConnections := []
    draining := false
    stats := { totalConnected := 0, totalDisconnected := 0, rejected := 0, rejectedPerIp := 0 } }

namespace ConnectionPool

/-- Embeds `ConnectionPool.canAccept(ipAddress?)`: checks draining first, then the
global limit, then — only when an IP address is supplied and truthy (JS
treats the empty string as falsy) and already has a tracked set — the
per-origin limit.  Returns `none` for "can accept". -/
def canAccept (cfg : PoolConfig) (p : PoolState) (ipAddress : Option String) :
    Option RejectionReason :=
  if p.draining then some RejectionReason.DRAINING
  else if cfg.maxConnections ≤ p.connections.length then some RejectionReason.POOL_FULL
  else
    match ipAddress with
    | none => none
    | some a =>
      if a = "" then none
      else
        match mapGet p.ipConnections a with
        | none => none
        | some ipConns =>
          if cfg.maxConnectionsPerIp ≤ ipConns.length then
            some RejectionReason.IP_LIMIT_REACHED
          else none

/-- Embeds `ConnectionPool.getConnectionCountByIp(ipAddress)`. -/
def getConnectionCountByIp (p : PoolState) (ipAddress : String) : Nat :=
  ((mapGet p.ipConnections ipAddress).getD []).length

/-- Embeds `ConnectionPool.add(info)`: re-validates via `canAccept`; on rejection
bumps the matching rejection counter and mutates nothing else; on acceptance
inserts into both maps (creating the per-IP set on demand) and bumps the
lifetime connected counter.  Returns the new state and the rejection, if any. -/
def add (cfg : PoolConfig) (p : PoolState) (info : ConnectionInfo) :
    PoolState × Option RejectionReason :=
  match canAccept cfg p (some info.ipAddress) with
  | some r =>
    let stats :=
      match r with
      | RejectionReason.POOL_FULL => { p.stats with rejected := p.stats.rejected + 1 }
      | RejectionReason.IP_LIMIT_REACHED =>
          { p.stats with rejectedPerIp := p.stats.rejectedPerIp + 1 }
      | RejectionReason.DRAINING => { p.stats with rejected := p.stats.rejected + 1 }
    ({ p with stats := stats }, some r)
  | none =>
    let prev := (mapGet p.ipConnections info.ipAddress).getD []
    ({ p with
        connections := mapSet p.connections info.clientId info
        ipConnections := mapSet p.ipConnections info.ipAddress (setAdd prev info.clientId)
        stats := { p.stats with totalConnected := p.stats.totalConnected + 1 } },
     none)

/-- Embeds `ConnectionPool.remove(clientId)`: no-op returning `false` when the id is
unknown; otherwise deletes from the global map, deletes the id from its
origin's set — dropping the origin entry entirely when the set becomes
empty — bumps the disconnected counter and returns `true`. -/
def remove (p : PoolState) (clientId : String) : PoolState × Bool :=
  match mapGet p.connections clientId with
  | none => (p, false)
  | some conn =>
    let conns := mapDelete p.connections clientId
    let ipConns :=
      match mapGet p.ipConnections conn.ipAddress with
      | none => p.ipConnections
      | some ipSet =>
        let ipSet' := setDelete ipSet clientId
        if ipSet'.length = 0 then mapDelete p.ipConnections conn.ipAddress
        else mapSet p.ipConnections conn.ipAddress ipSet'
    ({ p with
        connections := conns
        ipConnections := ipConns
        stats := { p.stats with totalDisconnected := p.stats.totalDisconnected + 1 } },
     true)

/-- Embeds `ConnectionPool.startDraining()`: no-op (with a warning) when already
draining, otherwise sets the flag. -/
def startDraining (p : PoolState) : PoolState :=
  if p.draining then p else { p with draining := true }

/-- Embeds `ConnectionPool.stopDraining()`: clears the flag. -/
def stopDraining (p : PoolState) : PoolState :=
  { p with draining := false }

end ConnectionPool

/-- One pool operation of the sequences quantified over by the invariant
claim. -/
inductive PoolOp where
  | add (info : ConnectionInfo)
  | remove (clientId : String)
  | startDraining
  | stopDraining
deriving DecidableEq

/-- Apply one pool operation, discarding the returned value. -/
def applyPoolOp (cfg : PoolConfig) (p : PoolState) : PoolOp → PoolState
  | PoolOp.add info => (ConnectionPool.add cfg p info).1
  | PoolOp.remove cid => (ConnectionPool.remove p cid).1
  | PoolOp.startDraining => ConnectionPool.startDraining p
  | PoolOp.stopDraining => ConnectionPool.stopDraining p

/-- Run a sequence of pool operations from a starting state. -/
def runPoolOps (cfg : PoolConfig) (p : PoolState) : List PoolOp → PoolState
  | [] => p
  | op :: rest => runPoolOps cfg (applyPoolOp cfg p op) rest

/-- The pool invariant: the global map never exceeds `maxConnections`, and
every per-origin set for a truthy (non-empty) origin never exceeds
`max maxConnectionsPerIp 1`.  (The `max … 1` accounts for the fact that
`canAccept` only consults the per-origin limit once the origin already has a
tracked set, so the very first connection from an origin is always admitted;
with `maxConnectionsPerIp ≥ 1` the bound is `maxConnectionsPerIp` itself.) -/
def PoolInv (cfg : PoolConfig) (p : PoolState) : Prop :=
  p.connections.length ≤ cfg.maxConnections ∧
  ∀ a s, (a, s) ∈ p.ipConnections → a ≠ "" →
    s.length ≤ max cfg.maxConnectionsPerIp 1

/-! ## Connection state machine (agent side)

Embeds `ConnectionStateMachine` and its transition table from the client
state module. -/

/-- Connection lifecycle states (`ConnectionState`). -/
inductive ConnectionState where
  | DISCONNECTED
  | CONNECTING
  | CONNECTED
  | AUTHENTICATED
  | READY
deriving DecidableEq

/-- Events that trigger state transitions (`ConnectionEvent`). -/
inductive ConnectionEvent where
  | CONNECT_REQUESTED
  | CONNECTION_OPENED
  | CONNECTION_CLOSED
  | CONNECTION_ERROR
  | AUTH_COMPLETED
  | CLIENT_ID_ASSIGNED
  | DISCONNECT_REQUESTED
deriving DecidableEq

/-- Embeds the `VALID_TRANSITIONS` record of partial records as a partial
function: `none` means the table has no entry for the pair. -/
def VALID_TRANSITIONS : ConnectionState → ConnectionEvent → Option ConnectionState
  | ConnectionState.DISCONNECTED, ConnectionEvent.CONNECT_REQUESTED =>
      some ConnectionState.CONNECTING
  | ConnectionState.DISCONNECTED, ConnectionEvent.CONNECTION_ERROR =>
      some ConnectionState.DISCONNECTED
  | ConnectionState.DISCONNECTED, ConnectionEvent.CONNECTION_CLOSED =>
      some ConnectionState.DISCONNECTED
  | ConnectionState.DISCONNECTED, ConnectionEvent.DISCONNECT_REQUESTED =>
      some ConnectionState.DISCONNECTED
  | ConnectionState.CONNECTING, ConnectionEvent.CONNECTION_OPENED =>
      some ConnectionState.CONNECTED
  | ConnectionState.CONNECTING, ConnectionEvent.CONNECTION_ERROR =>
      some ConnectionState.DISCONNECTED
  | ConnectionState.CONNECTING, ConnectionEvent.CONNECTION_CLOSED =>
      some ConnectionState.DISCONNECTED
  | ConnectionState.CONNECTING, ConnectionEvent.DISCONNECT_REQUESTED =>
      some ConnectionState.DISCONNECTED
  | ConnectionState.CONNECTED, ConnectionEvent.AUTH_COMPLETED =>
      some ConnectionState.AUTHENTICATED
  | ConnectionState.CONNECTED, ConnectionEvent.CONNECTION_CLOSED =>
      some ConnectionState.DISCONNECTED
  | ConnectionState.CONNECTED, ConnectionEvent.CONNECTION_ERROR =>
      some ConnectionState.DISCONNECTED
  | ConnectionState.CONNECTED, ConnectionEvent.DISCONNECT_REQUESTED =>
      some ConnectionState.DISCONNECTED
  | ConnectionState.AUTHENTICATED, ConnectionEvent.CLIENT_ID_ASSIGNED =>
      some ConnectionState.READY
  | ConnectionState.AUTHENTICATED, ConnectionEvent.CONNECTION_CLOSED =>
      some ConnectionState.DISCONNECTED
  | ConnectionState.AUTHENTICATED, ConnectionEvent.CONNECTION_ERROR =>
      some ConnectionState.DISCONNECTED
  | ConnectionState.AUTHENTICATED, ConnectionEvent.DISCONNECT_REQUESTED =>
      some ConnectionState.DISCONNECTED
  | ConnectionState.READY, ConnectionEvent.CONNECTION_CLOSED =>
      some ConnectionState.DISCONNECTED
  | ConnectionState.READY, ConnectionEvent.CONNECTION_ERROR =>
      some ConnectionState.DISCONNECTED
  | ConnectionState.READY, ConnectionEvent.DISCONNECT_REQUESTED =>
      some ConnectionState.DISCONNECTED
  | _, _ => none

/-- A registered state-change listener.  The source wraps every listener
call in `try { listener(state, event) } catch (error) { log }`, so a
listener is embedded as a function that either returns normally
(`Except.ok`) or throws (`Except.error`). -/
def Listener : Type := ConnectionState → ConnectionEvent → Except String Unit

/-- The mutable state of a `ConnectionStateMachine`: the current state and
the registered listeners. -/
structure StateMachineState where
  state : ConnectionState
  listeners : List Listener

namespace ConnectionStateMachine

/-- Embeds `notifyListeners`: the loop invokes every listener in order with
`(state, event)`; a throwing listener's error is caught (recorded in the
returned list) and the loop continues with the remaining listeners. -/
def notifyListeners (listeners : List Listener) (s : ConnectionState)
    (e : ConnectionEvent) : List (Except String Unit) :=
  match listeners with
  | [] => []
  | l :: rest => l s e :: notifyListeners rest s e

/-- Embeds `transition(event)`: looks up the table; when absent, logs and
returns `false` without touching the state or the listeners; when present,
sets the state and notifies every listener with `(nextState, event)`.
Returns the new machine state, the boolean result, and the list of listener
invocation outcomes. -/
def transition (m : StateMachineState) (e : ConnectionEvent) :
    StateMachineState × Bool × List (Except String Unit) :=
  match VALID_TRANSITIONS m.state e with
  | none => (m, false, [])
  | some next =>
    ({ m with state := next }, true, notifyListeners m.listeners next e)

/-- Embeds `forceState(state, reason)`: sets the state unconditionally and
notifies every listener with the synthetic `CONNECTION_ERROR` event. -/
def forceState (m : StateMachineState) (s : ConnectionState) (_reason : String) :
    StateMachineState × List (Except String Unit) :=
  ({ m with state := s }, notifyListeners m.listeners s ConnectionEvent.CONNECTION_ERROR)

/-- Embeds `reset()`: forces DISCONNECTED unless already there. -/
def reset (m : StateMachineState) : StateMachineState × List (Except String Unit) :=
  if m.state ≠ ConnectionState.DISCONNECTED then
    forceState m ConnectionState.DISCONNECTED "reset"
  else (m, [])

end ConnectionStateMachine

/-- The effect of `transition` on the state component alone: an event absent
from the table leaves the state unchanged. -/
def transitionState (s : ConnectionState) (e : ConnectionEvent) : ConnectionState :=
  (VALID_TRANSITIONS s e).getD s

/-! ## Reconnection engine (agent side)

Embeds the timer/flag/attempt bookkeeping of `ReconnectingWebSocketClient`.
A pending timer is embedded as `some payload` (the payload of the reconnect
timer is its scheduled delay); `clearTimeout` is `none`.  The transport
handle, the event handler and the web-server status mirror carry no
admission or reconnection decision and are not represented; the embedded
state machine is represented by its state component (`transitionState`). -/

/-- The constructor arguments of `ReconnectingWebSocketClient` that the
reconnection logic reads. -/
structure ClientConfig where
  reconnectEnabled : Bool
  reconnectInterval : Nat
  reconnectMaxAttempts : Nat
  reconnectBackoff : Bool
  reconnectMaxDelay : Nat
deriving DecidableEq

/-- The mutable fields of `ReconnectingWebSocketClient` that drive
reconnection. -/
structure ClientState where
  reconnectAttempts : Nat
  reconnectTimeoutId : Option Nat
  connectionTimeoutId : Option Nat
  intentionalClose : Bool
  smState : ConnectionState
deriving DecidableEq

namespace ReconnectingWebSocketClient

/-- Embeds `getReconnectDelay()`: the base interval when backoff is
disabled, otherwise `min(interval * 2 ^ attempts, maxDelay)`. -/
def getReconnectDelay (cfg : ClientConfig) (reconnectAttempts : Nat) : Nat :=
  if !cfg.reconnectBackoff then cfg.reconnectInterval
  else min (cfg.reconnectInterval * 2 ^ reconnectAttempts) cfg.reconnectMaxDelay

/-- Embeds `handleDisconnect(error?)`: clears both pending timers, then
stops on an intentional close, on disabled reconnection, or on exhausted
attempts; otherwise computes the delay, increments the attempt counter and
arms the reconnect timer. -/
def handleDisconnect (cfg : ClientConfig) (c : ClientState) : ClientState :=
  let c := { c with reconnectTimeoutId := none, connectionTimeoutId := none }
  if c.intentionalClose then c
  else if !cfg.reconnectEnabled then c
  else if 0 < cfg.reconnectMaxAttempts ∧ cfg.reconnectMaxAttempts ≤ c.reconnectAttempts then c
  else
    let delay := getReconnectDelay cfg c.reconnectAttempts
    { c with reconnectAttempts := c.reconnectAttempts + 1, reconnectTimeoutId := some delay }

/-- Embeds the `ws.onclose` handler: clears the connect-timeout, fires
`CONNECTION_CLOSED` (or `DISCONNECT_REQUESTED` on an intentional close)
unless already DISCONNECTED, then runs `handleDisconnect`. -/
def onCloseEvent (cfg : ClientConfig) (c : ClientState) : ClientState :=
  let c := { c with connectionTimeoutId := none }
  let c :=
    if c.smState ≠ ConnectionState.DISCONNECTED then
      if !c.intentionalClose then
        { c with smState := transitionState c.smState ConnectionEvent.CONNECTION_CLOSED }
      else
        { c with smState := transitionState c.smState ConnectionEvent.DISCONNECT_REQUESTED }
    else c
  handleDisconnect cfg c

/-- Embeds the `ws.onerror` handler: clears the connect-timeout and fires
`CONNECTION_ERROR`; it does not itself run `handleDisconnect`. -/
def onErrorEvent (c : ClientState) : ClientState :=
  let c := { c with connectionTimeoutId := none }
  { c with smState := transitionState c.smState ConnectionEvent.CONNECTION_ERROR }

/-- Embeds `close()`: sets the intentional-close flag, clears both pending
timers, closes the transport and resets the state machine to DISCONNECTED
(via `reset`, which forces the state unless already there). -/
def close (c : ClientState) : ClientState :=
  let c := { c with intentionalClose := true }
  let c := { c with reconnectTimeoutId := none, connectionTimeoutId := none }
  if c.smState ≠ ConnectionState.DISCONNECTED then
    { c with smState := ConnectionState.DISCONNECTED }
  else c

end ReconnectingWebSocketClient

/-- The client-side happenings quantified over by the intentional-close
claim: the transport close event, the transport error event, a direct run
of disconnect handling, and another intentional `close()` call. -/
inductive ClientEvent where
  | closeEvent
  | errorEvent
  | disconnect
  | intentionalCloseCall
deriving DecidableEq

/-- Apply one client-side event. -/
def applyClientEvent (cfg : ClientConfig) (c : ClientState) : ClientEvent → ClientState
  | ClientEvent.closeEvent => ReconnectingWebSocketClient.onCloseEvent cfg c
  | ClientEvent.errorEvent => ReconnectingWebSocketClient.onErrorEvent c
  | ClientEvent.disconnect => ReconnectingWebSocketClient.handleDisconnect cfg c
  | ClientEvent.intentionalCloseCall => ReconnectingWebSocketClient.close c

/-- Run a sequence of client-side events. -/
def runClientEvents (cfg : ClientConfig) (c : ClientState) : List ClientEvent → ClientState
  | [] => c
  | e :: rest => runClientEvents cfg (applyClientEvent cfg c e) rest

/-- The state of a client after an intentional close: the flag is set and
the reconnect timer is not armed. -/
def ClosedClientInv (c : ClientState) : Prop :=
  c.intentionalClose = true ∧ c.reconnectTimeoutId = none

/-! ## Heartbeat (agent side) -/

/-- Embeds `HeartbeatContext`: the interval and reply-timeout timer handles
and the awaiting-reply flag. -/
structure HeartbeatContext where
  intervalId : Option Nat
  timeoutId : Option Nat
  awaitingPong : Bool
deriving DecidableEq

/-- Embeds `resetHeartbeatTimeout(context)` (the reply handler): clears the
awaiting-reply flag and, when a reply-timeout timer is pending, cancels it.
The boolean records whether `clearTimeout` was invoked. -/
def resetHeartbeatTimeout (c : HeartbeatContext) : HeartbeatContext × Bool :=
  let c := { c with awaitingPong := false }
  match c.timeoutId with
  | some _ => ({ c with timeoutId := none }, true)
  | none => (c, false)

/-! ## Coordinator auth-response handling

Embeds the AUTH_RESPONSE branch of the coordinator's `handleMessage`. -/

/-- Embeds the server-side `AuthContext`. -/
structure AuthContext where
  enabled : Bool
  secret : String
  authenticated : Bool
deriving DecidableEq

/-- Embeds the `AUTH_RESULT` message sent back to the agent. -/
structure AuthResultMessage where
  success : Bool
  status : Nat
  message : String
deriving DecidableEq

/-- Embeds the AUTH_RESPONSE branch of `handleMessage`.  `verify` stands for
the external cryptographic check `verifyToken(token, secret)`: it returns
the payload subject on success and `none` on an invalid or expired token.
JS truthiness: `if (data.token)` treats an absent token and an empty-string
token alike.  Returns the updated auth context, the `AUTH_RESULT` reply
sent on the socket, and the `socket.close(code, reason)` call performed, if
any; the close is guarded by `shouldCloseConnection && authContext.enabled`. -/
def handleAuthResponse (verify : String → Option String) (ctx : AuthContext)
    (token : Option String) : AuthContext × AuthResultMessage × Option (Nat × String) :=
  let step : Bool × String × Bool × AuthContext :=
    match token with
    | some t =>
      if t = "" then
        (false, "No token provided, please login", false, ctx)
      else
        match verify t with
        | some _ =>
          (true, "Authentication successful", false, { ctx with authenticated := true })
        | none => (false, "Invalid or expired token", true, ctx)
    | none => (false, "No token provided, please login", false, ctx)
  let authSuccess := step.1
  let authMessage := step.2.1
  let shouldCloseConnection := step.2.2.1
  let ctx' := step.2.2.2
  let authResult : AuthResultMessage :=
    { success := authSuccess
      status := if authSuccess then 200 else 401
      message := authMessage }
  let closeCall :=
    if shouldCloseConnection && ctx.enabled then some ((1008 : Nat), "Authentication failed")
    else none
  (ctx', authResult, closeCall)

/-! ### Lemmas about the `Map` / `Set` primitives -/

theorem mapGet_mem {α : Type} {m : List (String × α)} {k : String} {v : α}
    (h : mapGet m k = some v) : (k, v) ∈ m := by
  induction m with
  | nil => simp [mapGet] at h
  | cons hd tl ih =>
    obtain ⟨k', v'⟩ := hd
    by_cases hk : k' = k
    · subst hk
      simp [mapGet] at h
      subst h
      exact List.mem_cons_self _ _
    · simp [mapGet, hk] at h
      exact List.mem_cons_of_mem _ (ih h)

theorem mem_mapSet {α : Type} {m : List (String × α)} {k a : String} {v s : α}
    (h : (a, s) ∈ mapSet m k v) : (a, s) ∈ m ∨ (a = k ∧ s = v) := by
  induction m with
  | nil =>
    simp [mapSet] at h
    exact Or.inr h
  | cons hd tl ih =>
    obtain ⟨k', v'⟩ := hd
    by_cases hk : k' = k
    · simp [mapSet, hk] at h
      rcases h with h | h
      · exact Or.inr h
      · exact Or.inl (List.mem_cons_of_mem _ h)
    · simp [mapSet, hk] at h
      rcases h with h | h
      · exact Or.inl (by simp [h])
      · rcases ih h with h' | h'
        · exact Or.inl (List.mem_cons_of_mem _ h')
        · exact Or.inr h'

theorem length_mapSet_le {α : Type} (m : List (String × α)) (k : String) (v : α) :
    (mapSet m k v).length ≤ m.length + 1 := by
  induction m with
  | nil => simp [mapSet]
  | cons hd tl ih =>
    obtain ⟨k', v'⟩ := hd
    by_cases hk : k' = k
    · simp [mapSet, hk]
    · simp only [mapSet, if_neg hk, List.length_cons]
      omega

theorem mem_mapDelete {α : Type} {m : List (String × α)} {k a : String} {s : α}
    (h : (a, s) ∈ mapDelete m k) : (a, s) ∈ m := by
  induction m with
  | nil => simp [mapDelete] at h
  | cons hd tl ih =>
    obtain ⟨k', v'⟩ := hd
    by_cases hk : k' = k
    · simp only [mapDelete, if_pos hk] at h
      exact List.mem_cons_of_mem _ (ih h)
    · simp only [mapDelete, if_neg hk, List.mem_cons] at h
      rcases h with h | h
      · rw [h]
        exact List.mem_cons_self _ _
      · exact List.mem_cons_of_mem _ (ih h)

theorem length_mapDelete_le {α : Type} (m : List (String × α)) (k : String) :
    (mapDelete m k).length ≤ m.length := by
  induction m with
  | nil => simp [mapDelete]
  | cons hd tl ih =>
    obtain ⟨k', v'⟩ := hd
    by_cases hk : k' = k
    · simp only [mapDelete, if_pos hk, List.length_cons]
      omega
    · simp only [mapDelete, if_neg hk, List.length_cons]
      omega

theorem mapGet_mapDelete_self {α : Type} (m : List (String × α)) (k : String) :
    mapGet (mapDelete m k) k = none := by
  induction m with
  | nil => simp [mapDelete, mapGet]
  | cons hd tl ih =>
    obtain ⟨k', v'⟩ := hd
    by_cases hk : k' = k
    · simp [mapDelete, if_pos hk, ih]
    · simp [mapDelete, if_neg hk, mapGet, hk, ih]

theorem mapGet_mapSet_self {α : Type} (m : List (String × α)) (k : String) (v : α) :
    mapGet (mapSet m k v) k = some v := by
  induction m with
  | nil => simp [mapSet, mapGet]
  | cons hd tl ih =>
    obtain ⟨k', v'⟩ := hd
    by_cases hk : k' = k
    · simp [mapSet, if_pos hk, mapGet]
    · simp [mapSet, if_neg hk, mapGet, hk, ih]

theorem length_setAdd_le (s : List String) (x : String) :
    (setAdd s x).length ≤ s.length + 1 := by
  unfold setAdd
  by_cases hx : x ∈ s
  · simp [hx]
  · simp [hx]

theorem length_setDelete_le (s : List String) (x : String) :
    (setDelete s x).length ≤ s.length := by
  induction s with
  | nil => simp [setDelete]
  | cons y rest ih =>
    by_cases hy : y = x
    · simp only [setDelete, if_pos hy, List.length_cons]
      omega
    · simp only [setDelete, if_neg hy, List.length_cons]
      omega

theorem not_mem_setDelete_self (s : List String) (x : String) :
    x ∉ setDelete s x := by
  induction s with
  | nil => simp [setDelete]
  | cons y rest ih =>
    by_cases hy : y = x
    · simpa [setDelete, if_pos hy] using ih
    · simp only [setDelete, if_neg hy, List.mem_cons]
      rintro (h | h)
      · exact hy h.symm
      · exact ih h

/-! ### The admission invariant -/

theorem canAccept_none_global {cfg : PoolConfig} {p : PoolState} {ip : Option String}
    (h : ConnectionPool.canAccept cfg p ip = none) :
    p.connections.length < cfg.maxConnections := by
  unfold ConnectionPool.canAccept at h
  split at h
  · simp at h
  · split at h
    · simp at h
    · omega

theorem canAccept_none_perIp {cfg : PoolConfig} {p : PoolState} {a : String}
    (h : ConnectionPool.canAccept cfg p (some a) = none) (ha : ¬a = "")
    {s : List String} (hs : mapGet p.ipConnections a = some s) :
    s.length < cfg.maxConnectionsPerIp := by
  unfold ConnectionPool.canAccept at h
  split at h
  · simp at h
  · split at h
    · simp at h
    · simp only [if_neg ha, hs] at h
      split at h
      · simp at h
      · omega

theorem add_preservesInv (cfg : PoolConfig) (p : PoolState) (info : ConnectionInfo)
    (h : PoolInv cfg p) : PoolInv cfg (ConnectionPool.add cfg p info).1 := by
  unfold ConnectionPool.add
  cases hc : ConnectionPool.canAccept cfg p (some info.ipAddress) with
  | some r => exact h
  | none =>
    obtain ⟨h1, h2⟩ := h
    constructor
    · have hlt := canAccept_none_global hc
      have := length_mapSet_le p.connections info.clientId info
      simpa using by omega
    · intro a s hmem ha
      rcases mem_mapSet hmem with hold | ⟨rfl, rfl⟩
      · exact h2 a s hold ha
      · cases hg : mapGet p.ipConnections info.ipAddress with
        | none =>
          have hset : setAdd ((none : Option (List String)).getD []) info.clientId
              = [info.clientId] := by simp [setAdd]
          rw [hset]
          simp
        | some s0 =>
          have hlt := canAccept_none_perIp hc ha hg
          have hle := length_setAdd_le ((some s0 : Option (List String)).getD []) info.clientId
          refine le_trans ?_ (le_max_left cfg.maxConnectionsPerIp 1)
          simp only [Option.getD_some] at hle ⊢
          omega

theorem remove_preservesInv (cfg : PoolConfig) (p : PoolState) (cid : String)
    (h : PoolInv cfg p) : PoolInv cfg (ConnectionPool.remove p cid).1 := by
  unfold ConnectionPool.remove
  cases hc : mapGet p.connections cid with
  | none => exact h
  | some conn =>
    dsimp only
    obtain ⟨h1, h2⟩ := h
    constructor
    · exact le_trans (length_mapDelete_le p.connections cid) h1
    · cases hg : mapGet p.ipConnections conn.ipAddress with
      | none =>
        intro a s hmem ha
        exact h2 a s hmem ha
      | some ipSet =>
        by_cases hz : (setDelete ipSet cid).length = 0
        · intro a s hmem ha
          simp only [if_pos hz] at hmem
          exact h2 a s (mem_mapDelete hmem) ha
        · intro a s hmem ha
          simp only [if_neg hz] at hmem
          rcases mem_mapSet hmem with hold | ⟨ha2, hs2⟩
          · exact h2 a s hold ha
          · subst ha2
            subst hs2
            exact le_trans (length_setDelete_le ipSet cid)
              (h2 conn.ipAddress ipSet (mapGet_mem hg) ha)

theorem startDraining_preservesInv (cfg : PoolConfig) (p : PoolState)
    (h : PoolInv cfg p) : PoolInv cfg (ConnectionPool.startDraining p) := by
  unfold ConnectionPool.startDraining
  split
  · exact h
  · exact h

theorem applyPoolOp_preservesInv (cfg : PoolConfig) (p : PoolState) (op : PoolOp)
    (h : PoolInv cfg p) : PoolInv cfg (applyPoolOp cfg p op) := by
  cases op with
  | add info => exact add_preservesInv cfg p info h
  | remove cid => exact remove_preservesInv cfg p cid h
  | startDraining => exact startDraining_preservesInv cfg p h
  | stopDraining => exact h

theorem runPoolOps_preservesInv (cfg : PoolConfig) (ops : List PoolOp) :
    ∀ p : PoolState, PoolInv cfg p → PoolInv cfg (runPoolOps cfg p ops) := by
  induction ops with
  | nil => intro p h; exact h
  | cons op rest ih =>
    intro p h
    exact ih _ (applyPoolOp_preservesInv cfg p op h)

theorem emptyPool_inv (cfg : PoolConfig) : PoolInv cfg emptyPool := by
  constructor
  · simp [emptyPool]
  · intro a s hmem
    simp [emptyPool] at hmem

/-! ## Claim theorems -/

/-- C1, counterexample: the per-origin bound of the claim fails as stated.
With `maxConnections = 2` and `maxConnectionsPerIp = 1`, two `add`s whose
origin IP is the empty string (which `canAccept`'s JS truthiness check
treats as "no IP supplied") both succeed, leaving the `""` origin with a set
of 2 > 1 connections.  And with `maxConnectionsPerIp = 0`, the first `add`
from any origin succeeds (the per-origin branch is skipped while the origin
has no tracked set), leaving that origin with 1 > 0 connections. -/
theorem c1_per_origin_bound_counterexample :
    (mapGet (runPoolOps ⟨2, 1⟩ emptyPool
        [PoolOp.add ⟨"a", "", false⟩, PoolOp.add ⟨"b", "", false⟩]).ipConnections ""
      = some ["a", "b"] ∧
     ¬ (["a", "b"].length ≤ (⟨2, 1⟩ : PoolConfig).maxConnectionsPerIp)) ∧
    (mapGet (runPoolOps ⟨5, 0⟩ emptyPool
        [PoolOp.add ⟨"c", "1.2.3.4", false⟩]).ipConnections "1.2.3.4"
      = some ["c"] ∧
     ¬ (["c"].length ≤ (⟨5, 0⟩ : PoolConfig).maxConnectionsPerIp)) := by
  refine ⟨⟨?_, by decide⟩, ⟨?_, by decide⟩⟩ <;> rfl

/-- C1 (amended): for every sequence of pool operations (add, remove,
startDraining, stopDraining) from the empty pool, after each operation the
number of active connections is at most `maxConnections`, and every
*non-empty* origin IP's connection set has size at most
`max maxConnectionsPerIp 1` — hence at most `maxConnectionsPerIp` whenever
`maxConnectionsPerIp ≥ 1`.  (The empty-string origin and a zero per-origin
limit escape the per-origin check, as the counterexample shows; the global
bound is unconditional.) -/
theorem c1_pool_limits_invariant (cfg : PoolConfig) (ops : List PoolOp) :
    (runPoolOps cfg emptyPool ops).connections.length ≤ cfg.maxConnections ∧
    ∀ a s, (a, s) ∈ (runPoolOps cfg emptyPool ops).ipConnections → a ≠ "" →
      s.length ≤ max cfg.maxConnectionsPerIp 1 :=
  runPoolOps_preservesInv cfg ops emptyPool (emptyPool_inv cfg)

/-- C1 witness: a concrete run — two connections admitted from the same
origin under per-origin limit 2 — satisfies both bounds. -/
theorem c1_pool_limits_invariant_witness :
    (runPoolOps ⟨10, 2⟩ emptyPool
        [PoolOp.add ⟨"a", "1.2.3.4", false⟩,
         PoolOp.add ⟨"b", "1.2.3.4", false⟩]).connections.length ≤ 10 ∧
    ("1.2.3.4", ["a", "b"]) ∈ (runPoolOps ⟨10, 2⟩ emptyPool
        [PoolOp.add ⟨"a", "1.2.3.4", false⟩,
         PoolOp.add ⟨"b", "1.2.3.4", false⟩]).ipConnections ∧
    ["a", "b"].length ≤ max 2 1 :=
  ⟨(c1_pool_limits_invariant ⟨10, 2⟩ _).1,
   by decide,
   (c1_pool_limits_invariant ⟨10, 2⟩
      [PoolOp.add ⟨"a", "1.2.3.4", false⟩, PoolOp.add ⟨"b", "1.2.3.4", false⟩]).2
     "1.2.3.4" ["a", "b"] (by decide) (by decide)⟩

/-- C5: `canAccept` evaluates its checks in order — draining first
(rejecting unconditionally, regardless of occupancy), then global capacity,
then per-origin capacity.  In particular, when the global limit is reached
the result is POOL_FULL even if the per-origin limit is also reached, and
while draining the result is DRAINING even with free capacity.  Purity is
reflected in the embedding itself: `canAccept` is a function of the pool
state that returns only the decision. -/
theorem c5_canAccept_order (cfg : PoolConfig) (p : PoolState) (ip : Option String) :
    (p.draining = true →
      ConnectionPool.canAccept cfg p ip = some RejectionReason.DRAINING) ∧
    (p.draining = false → cfg.maxConnections ≤ p.connections.length →
      ConnectionPool.canAccept cfg p ip = some RejectionReason.POOL_FULL) ∧
    (∀ a, p.draining = false → p.connections.length < cfg.maxConnections →
      ip = some a → a ≠ "" →
      ∀ s, mapGet p.ipConnections a = some s → cfg.maxConnectionsPerIp ≤ s.length →
      ConnectionPool.canAccept cfg p ip = some RejectionReason.IP_LIMIT_REACHED) := by
  refine ⟨?_, ?_, ?_⟩
  · intro hd
    simp [ConnectionPool.canAccept, hd]
  · intro hd hf
    simp [ConnectionPool.canAccept, hd, hf]
  · intro a hd hf hip ha s hs hl
    subst hip
    simp [ConnectionPool.canAccept, hd, ha, hs, hl, Nat.not_le.mpr hf]

/-- C5 witness: the three rejection outcomes at concrete pool states — a
draining pool with free capacity rejects with DRAINING; a pool at both the
global and the per-origin limit rejects with POOL_FULL; a pool with free
global capacity but a full origin rejects with IP_LIMIT_REACHED. -/
theorem c5_canAccept_order_witness :
    ConnectionPool.canAccept ⟨2, 1⟩ ⟨[], [], true, ⟨0, 0, 0, 0⟩⟩ (some "1.2.3.4")
      = some RejectionReason.DRAINING ∧
    ConnectionPool.canAccept ⟨2, 1⟩
        ⟨[("a", ⟨"a", "1.2.3.4", false⟩), ("b", ⟨"b", "1.2.3.4", false⟩)],
         [("1.2.3.4", ["a", "b"])], false, ⟨2, 0, 0, 0⟩⟩ (some "1.2.3.4")
      = some RejectionReason.POOL_FULL ∧
    ConnectionPool.canAccept ⟨9, 1⟩
        ⟨[("a", ⟨"a", "1.2.3.4", false⟩)], [("1.2.3.4", ["a"])], false, ⟨1, 0, 0, 0⟩⟩
        (some "1.2.3.4")
      = some RejectionReason.IP_LIMIT_REACHED :=
  ⟨(c5_canAccept_order ⟨2, 1⟩ ⟨[], [], true, ⟨0, 0, 0, 0⟩⟩ (some "1.2.3.4")).1 rfl,
   (c5_canAccept_order ⟨2, 1⟩
      ⟨[("a", ⟨"a", "1.2.3.4", false⟩), ("b", ⟨"b", "1.2.3.4", false⟩)],
       [("1.2.3.4", ["a", "b"])], false, ⟨2, 0, 0, 0⟩⟩ (some "1.2.3.4")).2.1 rfl (by decide),
   (c5_canAccept_order ⟨9, 1⟩
      ⟨[("a", ⟨"a", "1.2.3.4", false⟩)], [("1.2.3.4", ["a"])], false, ⟨1, 0, 0, 0⟩⟩
      (some "1.2.3.4")).2.2 "1.2.3.4" rfl (by decide) rfl (by decide) ["a"] rfl (by decide)⟩

/-- C7: `remove` on an unknown id returns `false` and changes nothing; on a
known id it returns `true`, deletes the record from the global map, leaves
no occurrence of the id — and no empty set — at its origin's entry, and
increments exactly the disconnected counter. -/
theorem c7_remove_semantics (p : PoolState) (cid : String) :
    (mapGet p.connections cid = none → ConnectionPool.remove p cid = (p, false)) ∧
    (∀ conn, mapGet p.connections cid = some conn →
      (ConnectionPool.remove p cid).2 = true ∧
      mapGet (ConnectionPool.remove p cid).1.connections cid = none ∧
      (∀ s, mapGet (ConnectionPool.remove p cid).1.ipConnections conn.ipAddress = some s →
        cid ∉ s ∧ s ≠ []) ∧
      (ConnectionPool.remove p cid).1.stats.totalDisconnected
        = p.stats.totalDisconnected + 1 ∧
      (ConnectionPool.remove p cid).1.stats.totalConnected = p.stats.totalConnected ∧
      (ConnectionPool.remove p cid).1.stats.rejected = p.stats.rejected ∧
      (ConnectionPool.remove p cid).1.stats.rejectedPerIp = p.stats.rejectedPerIp ∧
      (ConnectionPool.remove p cid).1.draining = p.draining) := by
  constructor
  · intro h
    unfold ConnectionPool.remove
    rw [h]
  · intro conn hconn
    refine ⟨?_, ?_, ?_, ?_, ?_, ?_, ?_, ?_⟩ <;>
      simp only [ConnectionPool.remove, hconn]
    · exact mapGet_mapDelete_self p.connections cid
    · cases hg : mapGet p.ipConnections conn.ipAddress with
      | none =>
        intro s hs
        rw [hg] at hs
        cases hs
      | some ipSet =>
        by_cases hz : (setDelete ipSet cid).length = 0
        · intro s hs
          simp only [if_pos hz] at hs
          rw [mapGet_mapDelete_self] at hs
          cases hs
        · intro s hs
          simp only [if_neg hz] at hs
          rw [mapGet_mapSet_self] at hs
          cases hs
          constructor
          · exact not_mem_setDelete_self ipSet cid
          · intro hnil
            rw [hnil] at hz
            exact hz rfl

/-- C7 witness: removing a known id from a two-connection pool returns
`true`, empties nothing stale, and bumps only the disconnected counter;
removing an unknown id returns `false` and leaves the pool untouched. -/
theorem c7_remove_semantics_witness :
    ConnectionPool.remove
        ⟨[("a", ⟨"a", "1.2.3.4", false⟩)], [("1.2.3.4", ["a"])], false, ⟨1, 0, 0, 0⟩⟩
        "zz"
      = (⟨[("a", ⟨"a", "1.2.3.4", false⟩)], [("1.2.3.4", ["a"])], false, ⟨1, 0, 0, 0⟩⟩,
         false) ∧
    ((ConnectionPool.remove
        ⟨[("a", ⟨"a", "1.2.3.4", false⟩)], [("1.2.3.4", ["a"])], false, ⟨1, 0, 0, 0⟩⟩
        "a").2 = true ∧
     mapGet (ConnectionPool.remove
        ⟨[("a", ⟨"a", "1.2.3.4", false⟩)], [("1.2.3.4", ["a"])], false, ⟨1, 0, 0, 0⟩⟩
        "a").1.connections "a" = none ∧
     (ConnectionPool.remove
        ⟨[("a", ⟨"a", "1.2.3.4", false⟩)], [("1.2.3.4", ["a"])], false, ⟨1, 0, 0, 0⟩⟩
        "a").1.stats.totalDisconnected = 1) :=
  ⟨(c7_remove_semantics
      ⟨[("a", ⟨"a", "1.2.3.4", false⟩)], [("1.2.3.4", ["a"])], false, ⟨1, 0, 0, 0⟩⟩
      "zz").1 (by decide),
   ((c7_remove_semantics
      ⟨[("a", ⟨"a", "1.2.3.4", false⟩)], [("1.2.3.4", ["a"])], false, ⟨1, 0, 0, 0⟩⟩
      "a").2 ⟨"a", "1.2.3.4", false⟩ (by decide)).1,
   ((c7_remove_semantics
      ⟨[("a", ⟨"a", "1.2.3.4", false⟩)], [("1.2.3.4", ["a"])], false, ⟨1, 0, 0, 0⟩⟩
      "a").2 ⟨"a", "1.2.3.4", false⟩ (by decide)).2.1,
   ((c7_remove_semantics
      ⟨[("a", ⟨"a", "1.2.3.4", false⟩)], [("1.2.3.4", ["a"])], false, ⟨1, 0, 0, 0⟩⟩
      "a").2 ⟨"a", "1.2.3.4", false⟩ (by decide)).2.2.2.1⟩

/-- C10: `canAccept` invoked without an origin argument never returns
IP_LIMIT_REACHED — its result is DRAINING, POOL_FULL or acceptance — and
whenever the pool is not draining and below global capacity it accepts,
regardless of any origin's per-origin occupancy. -/
theorem c10_canAccept_no_origin (cfg : PoolConfig) (p : PoolState) :
    (ConnectionPool.canAccept cfg p none = some RejectionReason.DRAINING ∨
     ConnectionPool.canAccept cfg p none = some RejectionReason.POOL_FULL ∨
     ConnectionPool.canAccept cfg p none = none) ∧
    (p.draining = false → p.connections.length < cfg.maxConnections →
      ConnectionPool.canAccept cfg p none = none) := by
  constructor
  · unfold ConnectionPool.canAccept
    split
    · exact Or.inl rfl
    · split
      · exact Or.inr (Or.inl rfl)
      · exact Or.inr (Or.inr rfl)
  · intro hd hf
    simp [ConnectionPool.canAccept, hd, Nat.not_le.mpr hf]

/-! ### Reconnection-engine lemmas -/

/-- Disconnect handling on an intentionally closed client only clears the
timers: the intentional-close early return precedes every scheduling step. -/
theorem handleDisconnect_of_intentional (cfg : ClientConfig) (c : ClientState)
    (h : c.intentionalClose = true) :
    ReconnectingWebSocketClient.handleDisconnect cfg c =
      { c with reconnectTimeoutId := none, connectionTimeoutId := none } := by
  unfold ReconnectingWebSocketClient.handleDisconnect
  simp [h]

theorem handleDisconnect_closed (cfg : ClientConfig) (c : ClientState)
    (h : c.intentionalClose = true) :
    ClosedClientInv (ReconnectingWebSocketClient.handleDisconnect cfg c) := by
  rw [handleDisconnect_of_intentional cfg c h]
  exact ⟨h, rfl⟩

theorem close_closed (c : ClientState) :
    ClosedClientInv (ReconnectingWebSocketClient.close c) := by
  unfold ReconnectingWebSocketClient.close
  dsimp only
  split
  · exact ⟨rfl, rfl⟩
  · exact ⟨rfl, rfl⟩

theorem applyClientEvent_preservesClosed (cfg : ClientConfig) (c : ClientState)
    (e : ClientEvent) (h : ClosedClientInv c) :
    ClosedClientInv (applyClientEvent cfg c e) := by
  obtain ⟨h1, h2⟩ := h
  cases e with
  | closeEvent =>
    unfold applyClientEvent ReconnectingWebSocketClient.onCloseEvent
    dsimp only
    apply handleDisconnect_closed
    split
    · split
      · exact h1
      · exact h1
    · exact h1
  | errorEvent => exact ⟨h1, h2⟩
  | disconnect => exact handleDisconnect_closed cfg c h1
  | intentionalCloseCall => exact close_closed c

theorem runClientEvents_preservesClosed (cfg : ClientConfig) (evs : List ClientEvent) :
    ∀ c : ClientState, ClosedClientInv c → ClosedClientInv (runClientEvents cfg c evs) := by
  induction evs with
  | nil => intro c h; exact h
  | cons e rest ih =>
    intro c h
    exact ih _ (applyClientEvent_preservesClosed cfg c e h)

/-- C3: `close()` sets the intentional-close flag and clears both the
pending reconnect timer and the connect-timeout timer; and after it, no
sequence of transport close events, transport error events, disconnect
handling runs or further `close()` calls ever arms the reconnect timer
again — for every reconnect configuration (enabled, max-attempts, backoff)
and every prior client state. -/
theorem c3_close_never_reconnects (cfg : ClientConfig) (c : ClientState)
    (evs : List ClientEvent) :
    (ReconnectingWebSocketClient.close c).intentionalClose = true ∧
    (ReconnectingWebSocketClient.close c).reconnectTimeoutId = none ∧
    (ReconnectingWebSocketClient.close c).connectionTimeoutId = none ∧
    (runClientEvents cfg (ReconnectingWebSocketClient.close c) evs).reconnectTimeoutId
      = none := by
  refine ⟨(close_closed c).1, (close_closed c).2, ?_,
    (runClientEvents_preservesClosed cfg evs _ (close_closed c)).2⟩
  unfold ReconnectingWebSocketClient.close
  dsimp only
  split
  · rfl
  · rfl

/-- C4: the reconnect delay for attempt counter `n` is the base interval
when backoff is disabled and `min(interval * 2 ^ n, maxDelay)` when
enabled; with interval 1000 and max delay 30000, attempts 0..6 yield
1000, 2000, 4000, 8000, 16000, 30000, 30000. -/
theorem c4_reconnect_delay (cfg : ClientConfig) (n : Nat) :
    (cfg.reconnectBackoff = false →
      ReconnectingWebSocketClient.getReconnectDelay cfg n = cfg.reconnectInterval) ∧
    (cfg.reconnectBackoff = true →
      ReconnectingWebSocketClient.getReconnectDelay cfg n =
        min (cfg.reconnectInterval * 2 ^ n) cfg.reconnectMaxDelay) ∧
    (List.range 7).map
        (ReconnectingWebSocketClient.getReconnectDelay ⟨true, 1000, 0, true, 30000⟩) =
      [1000, 2000, 4000, 8000, 16000, 30000, 30000] := by
  refine ⟨?_, ?_, by decide⟩
  · intro h
    simp [ReconnectingWebSocketClient.getReconnectDelay, h]
  · intro h
    simp [ReconnectingWebSocketClient.getReconnectDelay, h]

/-- C4 witness: with backoff disabled every attempt yields the interval;
with backoff enabled attempt 4 yields the capped exponential value. -/
theorem c4_reconnect_delay_witness :
    ReconnectingWebSocketClient.getReconnectDelay ⟨true, 500, 0, false, 30000⟩ 9 = 500 ∧
    ReconnectingWebSocketClient.getReconnectDelay ⟨true, 1000, 0, true, 30000⟩ 4
      = min (1000 * 2 ^ 4) 30000 :=
  ⟨(c4_reconnect_delay ⟨true, 500, 0, false, 30000⟩ 9).1 rfl,
   (c4_reconnect_delay ⟨true, 1000, 0, true, 30000⟩ 4).2.1 rfl⟩

/-- C9: the heartbeat reply handler clears the awaiting-reply flag, cancels
the pending reply-timeout timer (leaving the interval timer alone), and is
idempotent — a second application returns the same context and performs no
further `clearTimeout`. -/
theorem c9_heartbeat_reset_idempotent (c : HeartbeatContext) :
    (resetHeartbeatTimeout c).1.awaitingPong = false ∧
    (resetHeartbeatTimeout c).1.timeoutId = none ∧
    (resetHeartbeatTimeout c).1.intervalId = c.intervalId ∧
    resetHeartbeatTimeout (resetHeartbeatTimeout c).1 = ((resetHeartbeatTimeout c).1, false) := by
  rcases c with ⟨i, t, a⟩
  cases t with
  | none => exact ⟨rfl, rfl, rfl, rfl⟩
  | some x => exact ⟨rfl, rfl, rfl, rfl⟩

/-- C6, counterexample: the claim says an invalid token always closes the
transport with code 1008, but the close is guarded by
`shouldCloseConnection && authContext.enabled` — with authentication
disabled, a present-but-invalid token yields the unsuccessful 401
AUTH_RESULT and *no* close call. -/
theorem c6_invalid_token_close_counterexample :
    handleAuthResponse (fun _ => none) ⟨false, "secret", false⟩ (some "bad-token") =
      (⟨false, "secret", false⟩,
       { success := false, status := 401, message := "Invalid or expired token" },
       none) := rfl

/-- C6 (amended): on an AUTH_RESPONSE with a present (non-empty) token that
fails verification, the coordinator replies with an unsuccessful AUTH_RESULT
(status 401) and closes the transport with policy-violation code 1008 *when
authentication is enabled* (with authentication disabled it sends the same
reply but leaves the transport open); on an absent token it replies with an
unsuccessful 401 AUTH_RESULT and never closes the transport, permitting a
subsequent login exchange. -/
theorem c6_auth_response_handling (verify : String → Option String) (ctx : AuthContext) :
    (∀ t, t ≠ "" → verify t = none →
      handleAuthResponse verify ctx (some t) =
        (ctx, { success := false, status := 401, message := "Invalid or expired token" },
         if ctx.enabled then some (1008, "Authentication failed") else none)) ∧
    handleAuthResponse verify ctx none =
      (ctx,
       { success := false, status := 401, message := "No token provided, please login" },
       none) := by
  constructor
  · intro t ht hv
    unfold handleAuthResponse
    simp [ht, hv]
  · unfold handleAuthResponse
    simp

/-- C6 witness: with authentication enabled, an invalid token draws the 401
reply and the 1008 close; an absent token draws the 401 reply and no close. -/
theorem c6_auth_response_handling_witness :
    handleAuthResponse (fun _ => none) ⟨true, "secret", false⟩ (some "bad-token") =
      (⟨true, "secret", false⟩,
       { success := false, status := 401, message := "Invalid or expired token" },
       some (1008, "Authentication failed")) ∧
    handleAuthResponse (fun _ => none) ⟨true, "secret", false⟩ none =
      (⟨true, "secret", false⟩,
       { success := false, status := 401, message := "No token provided, please login" },
       none) :=
  ⟨(c6_auth_response_handling (fun _ => none) ⟨true, "secret", false⟩).1 "bad-token"
      (by decide) rfl,
   (c6_auth_response_handling (fun _ => none) ⟨true, "secret", false⟩).2⟩

/-- Notifying is exactly one invocation per registered listener, in
registration order, each with the same `(state, event)` pair. -/
theorem notifyListeners_eq_map (listeners : List Listener) (s : ConnectionState)
    (e : ConnectionEvent) :
    ConnectionStateMachine.notifyListeners listeners s e =
      listeners.map (fun l => l s e) := by
  induction listeners with
  | nil => rfl
  | cons l rest ih =>
    simp only [ConnectionStateMachine.notifyListeners, List.map_cons, ih]

/-- C2: an event with no table entry for the current state makes
`transition` return `false` with the state (and listeners) unchanged and no
listener notified; an event with an entry makes it return `true`, set the
state to the table's result, and notify every registered listener with
`(newState, event)` — with no exception for `newState = state`, since the
successful branch never compares the two. -/
theorem c2_transition_follows_table (m : StateMachineState) (e : ConnectionEvent) :
    (VALID_TRANSITIONS m.state e = none →
      ConnectionStateMachine.transition m e = (m, false, [])) ∧
    (∀ s', VALID_TRANSITIONS m.state e = some s' →
      ConnectionStateMachine.transition m e =
        ({ m with state := s' }, true, m.listeners.map (fun l => l s' e))) := by
  constructor
  · intro h
    unfold ConnectionStateMachine.transition
    rw [h]
  · intro s' h
    unfold ConnectionStateMachine.transition
    rw [h]
    dsimp only
    rw [notifyListeners_eq_map]

/-- C2 witness: firing CLIENT_ID_ASSIGNED while DISCONNECTED is rejected
without mutation or notification; firing DISCONNECT_REQUESTED while
DISCONNECTED is an idempotent entry (`newState = state`) that still returns
`true` and notifies the registered listener. -/
theorem c2_transition_follows_table_witness :
    ConnectionStateMachine.transition
        ⟨ConnectionState.DISCONNECTED, [fun _ _ => Except.ok ()]⟩
        ConnectionEvent.CLIENT_ID_ASSIGNED
      = (⟨ConnectionState.DISCONNECTED, [fun _ _ => Except.ok ()]⟩, false, []) ∧
    ConnectionStateMachine.transition
        ⟨ConnectionState.DISCONNECTED, [fun _ _ => Except.ok ()]⟩
        ConnectionEvent.DISCONNECT_REQUESTED
      = (⟨ConnectionState.DISCONNECTED, [fun _ _ => Except.ok ()]⟩, true, [Except.ok ()]) :=
  ⟨(c2_transition_follows_table
      ⟨ConnectionState.DISCONNECTED, [fun _ _ => Except.ok ()]⟩
      ConnectionEvent.CLIENT_ID_ASSIGNED).1 rfl,
   (c2_transition_follows_table
      ⟨ConnectionState.DISCONNECTED, [fun _ _ => Except.ok ()]⟩
      ConnectionEvent.DISCONNECT_REQUESTED).2 ConnectionState.DISCONNECTED rfl⟩

/-- C8: listeners are arbitrary — including ones that throw — yet
`transition` on a table entry always lands in the target state and invokes
every registered listener (the source catches each listener's exception and
continues the loop, which the embedding records as one `Except` outcome per
listener); and `forceState` always succeeds, setting the target state and
notifying every listener with the synthetic CONNECTION_ERROR event, even
when the target equals the current state. -/
theorem c8_listener_exceptions_contained (m : StateMachineState) (s : ConnectionState)
    (reason : String) (e : ConnectionEvent) :
    ((ConnectionStateMachine.forceState m s reason).1.state = s ∧
     (ConnectionStateMachine.forceState m s reason).1.listeners = m.listeners ∧
     (ConnectionStateMachine.forceState m s reason).2 =
       m.listeners.map (fun l => l s ConnectionEvent.CONNECTION_ERROR) ∧
     (ConnectionStateMachine.forceState m s reason).2.length = m.listeners.length) ∧
    (∀ s', VALID_TRANSITIONS m.state e = some s' →
      (ConnectionStateMachine.transition m e).1.state = s' ∧
      (ConnectionStateMachine.transition m e).2.2.length = m.listeners.length) := by
  constructor
  · refine ⟨rfl, rfl, notifyListeners_eq_map m.listeners s ConnectionEvent.CONNECTION_ERROR, ?_⟩
    show (ConnectionStateMachine.notifyListeners m.listeners s
      ConnectionEvent.CONNECTION_ERROR).length = m.listeners.length
    rw [notifyListeners_eq_map]
    exact List.length_map _ _
  · intro s' h
    constructor
    · unfold ConnectionStateMachine.transition
      rw [h]
    · unfold ConnectionStateMachine.transition
      rw [h]
      dsimp only
      rw [notifyListeners_eq_map]
      exact List.length_map _ _

/-- C8 witness: with a throwing first listener and a normal second one,
`forceState` to the *same* state still lands there and invokes both
listeners in order (the throw is caught and recorded, the second listener
still runs), and a READY-state CONNECTION_ERROR transition also notifies
both. -/
theorem c8_listener_exceptions_contained_witness :
    (ConnectionStateMachine.forceState
        ⟨ConnectionState.READY, [fun _ _ => Except.error "boom", fun _ _ => Except.ok ()]⟩
        ConnectionState.READY "recovery").1.state = ConnectionState.READY ∧
    (ConnectionStateMachine.forceState
        ⟨ConnectionState.READY, [fun _ _ => Except.error "boom", fun _ _ => Except.ok ()]⟩
        ConnectionState.READY "recovery").2 = [Except.error "boom", Except.ok ()] ∧
    (ConnectionStateMachine.transition
        ⟨ConnectionState.READY, [fun _ _ => Except.error "boom", fun _ _ => Except.ok ()]⟩
        ConnectionEvent.CONNECTION_ERROR).1.state = ConnectionState.DISCONNECTED ∧
    (ConnectionStateMachine.transition
        ⟨ConnectionState.READY, [fun _ _ => Except.error "boom", fun _ _ => Except.ok ()]⟩
        ConnectionEvent.CONNECTION_ERROR).2.2.length = 2 :=
  ⟨(c8_listener_exceptions_contained
      ⟨ConnectionState.READY, [fun _ _ => Except.error "boom", fun _ _ => Except.ok ()]⟩
      ConnectionState.READY "recovery" ConnectionEvent.CONNECTION_ERROR).1.1,
   ((c8_listener_exceptions_contained
      ⟨ConnectionState.READY, [fun _ _ => Except.error "boom", fun _ _ => Except.ok ()]⟩
      ConnectionState.READY "recovery" ConnectionEvent.CONNECTION_ERROR).1.2.2.1).trans rfl,
   ((c8_listener_exceptions_contained
      ⟨ConnectionState.READY, [fun _ _ => Except.error "boom", fun _ _ => Except.ok ()]⟩
      ConnectionState.READY "recovery" ConnectionEvent.CONNECTION_ERROR).2
      ConnectionState.DISCONNECTED rfl).1,
   ((c8_listener_exceptions_contained
      ⟨ConnectionState.READY, [fun _ _ => Except.error "boom", fun _ _ => Except.ok ()]⟩
      ConnectionState.READY "recovery" ConnectionEvent.CONNECTION_ERROR).2
      ConnectionState.DISCONNECTED rfl).2⟩

/-- C10 witness: a pool whose single origin is at (indeed over) its
per-origin limit of 1 still accepts an originless request while below
global capacity. -/
theorem c10_canAccept_no_origin_witness :
    ConnectionPool.canAccept ⟨10, 1⟩
        ⟨[("a", ⟨"a", "1.2.3.4", false⟩), ("b", ⟨"b", "1.2.3.4", false⟩)],
         [("1.2.3.4", ["a", "b"])], false, ⟨2, 0, 0, 0⟩⟩ none
      = none :=
  (c10_canAccept_no_origin ⟨10, 1⟩
      ⟨[("a", ⟨"a", "1.2.3.4", false⟩), ("b", ⟨"b", "1.2.3.4", false⟩)],
       [("1.2.3.4", ["a", "b"])], false, ⟨2, 0, 0, 0⟩⟩).2 rfl (by decide)

end Intraf
